import Mathlib

/-!
Shallow embedding of the AI Study Bot (main.py) and verification of its
specification claims.  The program is a small command-line assistant with a
JSON-backed formula cache, a PDF question flow, and a line-oriented command
loop.  Machine-level details that the claims do not depend on (logging text,
byte-level file IO) are abstracted; control flow, string handling and the
observable effects (disk state, model-client calls, outputs) follow the
Python source line by line.
-/

namespace StudyBot

/-- JSON values as produced by json.load in Python. -/
inductive Json where
  | null : Json
  | bool (b : Bool) : Json
  | num (n : Int) : Json
  | str (s : String) : Json
  | arr (xs : List Json) : Json
  | obj (kvs : List (String × Json)) : Json
  deriving Repr

/-- First-match lookup in an association list; models Python dict indexing
and dict.get for dicts decoded from JSON (whose keys are unique). -/
def alist_get {α : Type} (k : String) : List (String × α) → Option α
  | [] => none
  | (k0, v) :: rest => if k0 = k then some v else alist_get k rest

/-- Insert or overwrite a key, preserving insertion order as a Python dict
does: an existing key keeps its position, a new key goes to the end. -/
def insertKv {α : Type} (k : String) (v : α) : List (String × α) → List (String × α)
  | [] => [(k, v)]
  | (k0, v0) :: rest => if k0 = k then (k, v) :: rest else (k0, v0) :: insertKv k v rest

/-- Whether a JSON value is an object, i.e. decodes to a Python dict. -/
def Json.isObj : Json → Bool
  | .obj _ => true
  | _ => false

/-- The default store document written on reset: an object whose single
field "formulas" holds an empty object. -/
def defaultJson : Json := .obj [("formulas", .obj [])]

/-- State of the formulas.json file on disk: missing, present but not
decodable as JSON (this also covers a UnicodeDecodeError while reading),
or present with a decoded JSON value. -/
inductive StoreFile where
  | absent : StoreFile
  | notJson : StoreFile
  | val (j : Json) : StoreFile
  deriving Repr

/-- Python exceptions that validate_and_fix_json can let escape. -/
inductive PyExc where
  | fileNotFound : PyExc
  | attributeError : PyExc
  deriving Repr, DecidableEq

/-- Outcome of validate_and_fix_json: a returned document together with the
resulting on-disk file, or an uncaught exception. -/
inductive LoadResult where
  | ok (data : Json) (disk : StoreFile) : LoadResult
  | exc (e : PyExc) : LoadResult
  deriving Repr

/-- StudyBot.validate_and_fix_json.  Opening a missing file raises
FileNotFoundError, which the except clause (JSONDecodeError, ValueError,
UnicodeDecodeError) does not catch.  A decode failure is caught and the
file is reset to the default document.  For a decoded value, data.get on a
non-dict top level raises AttributeError (uncaught); a dict whose
"formulas" key is missing passes the isinstance check because dict.get
returns the default empty dict; a dict whose "formulas" value is not a
dict raises ValueError, caught, and the file is reset. -/
def validate_and_fix_json : StoreFile → LoadResult
  | .absent => .exc .fileNotFound
  | .notJson => .ok defaultJson (.val defaultJson)
  | .val j =>
    match j with
    | .obj kvs =>
      match alist_get "formulas" kvs with
      | none => .ok (.obj kvs) (.val (.obj kvs))
      | some v =>
        if v.isObj then .ok (.obj kvs) (.val (.obj kvs))
        else .ok defaultJson (.val defaultJson)
    | _ => .exc .attributeError

/-- The value data.get gives for key "formulas" with an empty-dict default,
as read in init_formulas_db.  On the paths where validate_and_fix_json
returns ok, the field is either absent or an object. -/
def getFormulas : Json → List (String × Json)
  | .obj kvs =>
    match alist_get "formulas" kvs with
    | some (.obj m) => m
    | some _ => []
    | none => []
  | _ => []

/-- Outcome of init_formulas_db: the in-memory formula map and the on-disk
file after loading, or an uncaught exception. -/
inductive InitResult where
  | ok (db : List (String × Json)) (disk : StoreFile) : InitResult
  | exc (e : PyExc) : InitResult
  deriving Repr

/-- StudyBot.init_formulas_db: validate (and possibly reset) the file, then
take the "formulas" field as the in-memory map. -/
def init_formulas_db (f : StoreFile) : InitResult :=
  match validate_and_fix_json f with
  | .ok data disk => .ok (getFormulas data) disk
  | .exc e => .exc e

mutual

/-- Python repr of a decoded JSON value, used by str() on containers.
Quote escaping inside strings is not modeled; no stored value the program
itself creates ever reaches the container cases. -/
def pyRepr : Json → String
  | .null => "None"
  | .bool true => "True"
  | .bool false => "False"
  | .num n => toString n
  | .str s => "\x27" ++ s ++ "\x27"
  | .arr xs => "[" ++ pyReprArr xs ++ "]"
  | .obj kvs => "\x7b" ++ pyReprObj kvs ++ "\x7d"

/-- Comma-separated repr of a list of JSON values. -/
def pyReprArr : List Json → String
  | [] => ""
  | [x] => pyRepr x
  | x :: y :: rest => pyRepr x ++ ", " ++ pyReprArr (y :: rest)

/-- Comma-separated repr of the entries of a JSON object. -/
def pyReprObj : List (String × Json) → String
  | [] => ""
  | [(k, v)] => "\x27" ++ k ++ "\x27: " ++ pyRepr v
  | (k, v) :: e :: rest => "\x27" ++ k ++ "\x27: " ++ pyRepr v ++ ", " ++ pyReprObj (e :: rest)

end

/-- Python str() as it appears in the f-string interpolation of a stored
formula value: a string interpolates to itself, anything else to its repr. -/
def pyStr : Json → String
  | .str s => s
  | v => pyRepr v

/-- Python str.lower on a string.  Python strings are character sequences,
so the primitives below work on the character list of the Lean string. -/
def pyLower (s : String) : String := ⟨s.data.map Char.toLower⟩

/-- Python str.strip with no argument: remove leading and trailing
whitespace characters. -/
def pyStrip (s : String) : String :=
  ⟨((s.data.dropWhile Char.isWhitespace).reverse.dropWhile Char.isWhitespace).reverse⟩

/-- Python str.startswith. -/
def pyStartsWith (s pre : String) : Bool := pre.data.isPrefixOf s.data

/-- Python str.endswith. -/
def pyEndsWith (s suf : String) : Bool := suf.data.isSuffixOf s.data

/-- Python slice s[:n], by characters. -/
def pyTake (s : String) (n : Nat) : String := ⟨s.data.take n⟩

/-- Python slice s[n:], by characters. -/
def pyDrop (s : String) (n : Nat) : String := ⟨s.data.drop n⟩

/-- The model client: self.model.generate as a function from the prompt to
either a completion string or a raised exception message. -/
def Model : Type := String → Except String String

/-- Mutable state of a StudyBot instance plus the parts of the world the
formula flow touches: the in-memory formula map, the on-disk store file,
and whether an attempt to write the store file would succeed. -/
structure BotState where
  formulas_db : List (String × Json)
  disk : StoreFile
  diskWriteOk : Bool

/-- Observable outcome of one successful get_formula call: the returned
string, the state afterwards, how many model-client calls were made, and
how many disk writes of the store file were attempted. -/
structure FormulaOut where
  output : String
  state : BotState
  modelCalls : Nat
  diskWrites : Nat

/-- The prompt get_formula builds for a cache miss, embedding the query
with its original casing. -/
def formulaPrompt (query : String) : String :=
  "Provide the exact formula for " ++ query ++
    " with brief explanation. Use LaTeX math formatting with $$ when appropriate."

/-- StudyBot.get_formula.  The query is lowercased for the cache lookup; a
hit returns the stored value with the database tag and touches nothing; a
miss calls the model (an exception there propagates, since no handler
encloses the call), records the response under the lowercased key, and
attempts to rewrite the whole store file, swallowing a write failure. -/
def get_formula (model : Model) (query : String) (s : BotState) :
    Except String FormulaOut :=
  let query_lower := pyLower query
  match alist_get query_lower s.formulas_db with
  | some v => .ok ⟨"📘 From Database:\n" ++ pyStr v, s, 0, 0⟩
  | none =>
    match model (formulaPrompt query) with
    | .error e => .error e
    | .ok response =>
      let db2 := insertKv query_lower (.str response) s.formulas_db
      let disk2 := if s.diskWriteOk then StoreFile.val (.obj [("formulas", .obj db2)])
                   else s.disk
      .ok ⟨"🧠 New Formula:\n" ++ response, ⟨db2, disk2, s.diskWriteOk⟩, 1, 1⟩

/-- A file in the documents directory: a PDF with a list of per-page
extracted texts, or a file fitz.open raises on, with the exception text. -/
inductive PdfFile where
  | pdf (pages : List String) : PdfFile
  | corrupt (msg : String) : PdfFile

/-- The documents directory: none when the directory itself is missing or
unreadable, otherwise its entries by filename. -/
structure FileSystem where
  documents : Option (List (String × PdfFile))

/-- Text extraction in query_pdf: concatenation of per-page text over the
loop that breaks at page index 10, so exactly the first min(pageCount, 10)
pages in page order. -/
def extract_text (pages : List String) : String :=
  String.join (pages.take 10)

/-- The prompt query_pdf builds: the extracted text truncated to its first
10000 characters, then the question. -/
def pdfPrompt (text question : String) : String :=
  "Answer based on this document:\n" ++ pyTake text 10000 ++
    "\n\nQuestion: " ++ question ++ "\nAnswer:"

/-- Observable outcome of one query_pdf call: the returned string and how
many model-client calls were made.  query_pdf never raises to its caller:
its body is wrapped in a try/except returning an error string. -/
structure PdfOut where
  output : String
  modelCalls : Nat

/-- StudyBot.query_pdf.  A missing documents directory makes
os.path.exists false, so it lands in the not-found branch like a missing
file.  A fitz.open failure is caught by the enclosing except and reported
with the exception text.  Whitespace-only extracted text is rejected
before any model call; otherwise the model is called once on the truncated
text plus the question, and a model exception is caught by the same
enclosing except. -/
def query_pdf (model : Model) (fs : FileSystem) (filename question : String) : PdfOut :=
  match fs.documents with
  | none => ⟨"❌ Error: File \x27" ++ filename ++ "\x27 not found.", 0⟩
  | some entries =>
    match alist_get filename entries with
    | none => ⟨"❌ Error: File \x27" ++ filename ++ "\x27 not found.", 0⟩
    | some (.corrupt msg) => ⟨"❌ Error: " ++ msg, 0⟩
    | some (.pdf pages) =>
      let text := extract_text pages
      if pyStrip text = "" then ⟨"❌ Error: The document is empty or unreadable.", 0⟩
      else
        match model (pdfPrompt text question) with
        | .error e => ⟨"❌ Error: " ++ e, 1⟩
        | .ok response => ⟨"📄 PDF Answer:\n" ++ response, 1⟩

/-- StudyBot.list_files: names in the documents directory whose name ends
with the exact string dot-p-d-f; a listing failure is caught and yields
the empty list. -/
def list_files (fs : FileSystem) : List String :=
  match fs.documents with
  | none => []
  | some entries => (entries.map Prod.fst).filter (fun f => pyEndsWith f ".pdf")

/-- Python str.split with a maxsplit bound, over a list of characters:
leading whitespace runs are consumed, each split takes the next maximal
non-whitespace word, and once the bound is exhausted the rest of the
string (leading whitespace stripped) is one final piece.  Recursion is
bounded by a character budget; every step consumes at least one
character, so a budget of the list length is never exhausted early. -/
def splitAux : Nat → Nat → List Char → List (List Char)
  | 0, _, _ => []
  | _ + 1, _, [] => []
  | fuel + 1, n, c :: cs =>
    if c.isWhitespace then splitAux fuel n cs
    else
      match n with
      | 0 => [c :: cs]
      | m + 1 =>
        ((c :: cs).takeWhile (fun d => !d.isWhitespace)) ::
          splitAux fuel m ((c :: cs).dropWhile (fun d => !d.isWhitespace))

/-- Python s.split(maxsplit) on a string. -/
def pySplit (maxsplit : Nat) (s : String) : List String :=
  (splitAux s.data.length maxsplit s.data).map List.asString

/-- The help text printed by the help command. -/
def helpText : String :=
  "\nCommands:\nask <question> - Get a formula\npdf <filename> <question> - Query a PDF\nlist - Show available PDFs\nexit - Quit"

/-- Output of the list command: the header line then one line per file. -/
def renderList (files : List String) : String :=
  (if files.isEmpty then "\nNo PDFs found" else "\nAvailable PDFs:") ++
    String.join (files.map (fun f => "\n- " ++ f))

/-- Usage message printed when a pdf command lacks a filename or question. -/
def usageMsg : String := "Usage: pdf filename.pdf \x27your question\x27"

/-- Message printed for an unrecognized command. -/
def invalidMsg : String := "❌ Invalid command. Type \x27help\x27 for available commands."

/-- Message printed for an empty input line. -/
def emptyMsg : String := "❌ Please enter a command. Type \x27help\x27 for available commands."

/-- Outcome of one iteration of the main while loop on one input line:
continue to the next iteration with some printed output, leave the loop
normally (exit or quit), or let an uncaught exception escape main and
terminate the process. -/
inductive LoopOutcome where
  | cont (output : String) (s : BotState) (modelCalls : Nat) : LoopOutcome
  | exitLoop (s : BotState) : LoopOutcome
  | crash (err : String) (s : BotState) : LoopOutcome

/-- One iteration of the body of main's while loop on the line read from
input.  The line is stripped; dispatch tests run in source order on the
lowercased input; the pdf branch splits the original-case input with
maxsplit 2 and requires three parts; the ask branch passes the
original-case text after the first four characters to get_formula, whose
model-client exception has no handler on this path. -/
def step (model : Model) (fs : FileSystem) (s : BotState) (line : String) : LoopOutcome :=
  let u := pyStrip line
  if u = "" then .cont emptyMsg s 0
  else if pyLower u = "exit" ∨ pyLower u = "quit" then .exitLoop s
  else if pyLower u = "help" then .cont helpText s 0
  else if pyLower u = "list" then .cont (renderList (list_files fs)) s 0
  else if pyStartsWith (pyLower u) "pdf " then
    match pySplit 2 u with
    | _ :: f :: q :: _ =>
      let r := query_pdf model fs f q
      .cont r.output s r.modelCalls
    | _ => .cont usageMsg s 0
  else if pyStartsWith (pyLower u) "ask " then
    match get_formula model (pyDrop u 4) s with
    | .ok r => .cont r.output r.state r.modelCalls
    | .error e => .crash e s
  else .cont invalidMsg s 0

/-- Run a sequence of further get_formula calls from a state, ignoring the
queries whose model call raises (such a call leaves the state as it was). -/
def runQueries (model : Model) : List String → BotState → BotState
  | [], s => s
  | q :: qs, s =>
    match get_formula model q s with
    | .ok r => runQueries model qs r.state
    | .error _ => runQueries model qs s

/-- A model client that always answers with a fixed string. -/
def m0 : Model := fun _ => .ok "R = V/I"

/-- A model client whose generate call always raises. -/
def mBoom : Model := fun _ => .error "boom"

/-- An empty documents directory. -/
def fs0 : FileSystem := ⟨some []⟩

/-- A documents directory with a whitespace-only PDF and a readable PDF. -/
def fs1 : FileSystem :=
  ⟨some [("blank.pdf", .pdf ["  ", "\n"]), ("good.pdf", .pdf ["hello world"])]⟩

/-- A fresh bot state with an empty store and a writable store file. -/
def s0 : BotState := ⟨[], .val defaultJson, true⟩

/-- A bot state with an empty store whose store-file writes fail. -/
def s0nw : BotState := ⟨[], .val defaultJson, false⟩

theorem alist_get_insert_self {α : Type} (k : String) (v : α) (l : List (String × α)) :
    alist_get k (insertKv k v l) = some v := by
  induction l with
  | nil => simp [insertKv, alist_get]
  | cons e rest ih =>
    obtain ⟨k0, v0⟩ := e
    by_cases h : k0 = k
    · simp [insertKv, h, alist_get]
    · simp [insertKv, h, alist_get, ih]

theorem alist_get_insert_of_ne {α : Type} (k j : String) (v : α) (l : List (String × α))
    (h : k ≠ j) : alist_get k (insertKv j v l) = alist_get k l := by
  induction l with
  | nil => simp [insertKv, alist_get, Ne.symm h]
  | cons e rest ih =>
    obtain ⟨k0, v0⟩ := e
    by_cases hk : k0 = j
    · subst hk
      simp [insertKv, alist_get, Ne.symm h]
    · by_cases hk0 : k0 = k
      · simp [insertKv, alist_get, hk, hk0, h]
      · simp [insertKv, alist_get, hk, hk0, ih]

theorem runQueries_preserves (model : Model) (qs : List String) (s : BotState)
    (k : String) (v : Json) (h : alist_get k s.formulas_db = some v) :
    alist_get k (runQueries model qs s).formulas_db = some v := by
  induction qs generalizing s with
  | nil => simpa [runQueries] using h
  | cons q qs ih =>
    rcases hl : alist_get (pyLower q) s.formulas_db with _ | w
    · rcases hm : model (formulaPrompt q) with e | resp
      · simpa [runQueries, get_formula, hl, hm] using ih s h
      · have hkq : k ≠ pyLower q := by
          intro hkq
          rw [hkq] at h
          rw [h] at hl
          cases hl
        have h2 : alist_get k (insertKv (pyLower q) (Json.str resp) s.formulas_db) = some v := by
          rw [alist_get_insert_of_ne k (pyLower q) _ _ hkq]
          exact h
        simpa [runQueries, get_formula, hl, hm] using ih _ h2
    · simpa [runQueries, get_formula, hl] using ih s h

/-- C1: with the store file absent at process start, load does not create
the default document and continue; opening the file raises
FileNotFoundError, which the except clause of validate_and_fix_json does
not list, so the exception escapes and startup terminates. -/
theorem c1_store_absent_raises :
    init_formulas_db StoreFile.absent = InitResult.exc PyExc.fileNotFound ∧
    validate_and_fix_json StoreFile.absent = LoadResult.exc PyExc.fileNotFound :=
  ⟨rfl, rfl⟩

/-- C2 counterexample: a decoded JSON object with no formulas field is
accepted as valid: load returns it with the on-disk document unchanged,
which differs from the default document the claim says is persisted.
Only the in-memory store is empty. -/
theorem c2_counterexample :
    init_formulas_db (StoreFile.val (Json.obj [("other", Json.num 1)])) =
      InitResult.ok [] (StoreFile.val (Json.obj [("other", Json.num 1)])) ∧
    StoreFile.val (Json.obj [("other", Json.num 1)]) ≠ StoreFile.val defaultJson := by
  refine ⟨rfl, ?_⟩
  intro h
  simp [defaultJson] at h

/-- C2 amended: load resets the store to the default document exactly when
the content fails to decode as JSON or decodes to an object whose formulas
field is present and not a mapping, leaving the in-memory store empty; an
object without a formulas field is kept unchanged on disk with an empty
in-memory store; and a decoded non-object top level raises an uncaught
AttributeError instead of being reset. -/
theorem c2_reset_behavior :
    (init_formulas_db StoreFile.notJson =
       InitResult.ok [] (StoreFile.val defaultJson)) ∧
    (∀ kvs v, alist_get "formulas" kvs = some v → v.isObj = false →
       init_formulas_db (StoreFile.val (Json.obj kvs)) =
         InitResult.ok [] (StoreFile.val defaultJson)) ∧
    (∀ kvs, alist_get "formulas" kvs = none →
       init_formulas_db (StoreFile.val (Json.obj kvs)) =
         InitResult.ok [] (StoreFile.val (Json.obj kvs))) ∧
    (∀ j : Json, j.isObj = false →
       init_formulas_db (StoreFile.val j) = InitResult.exc PyExc.attributeError) := by
  refine ⟨rfl, ?_, ?_, ?_⟩
  · intro kvs v hv hobj
    simp [init_formulas_db, validate_and_fix_json, hv, hobj, getFormulas, defaultJson,
      alist_get]
  · intro kvs hn
    simp [init_formulas_db, validate_and_fix_json, hn, getFormulas]
  · intro j hj
    cases j with
    | obj kvs => cases hj
    | null => rfl
    | bool b => rfl
    | num n => rfl
    | str s => rfl
    | arr xs => rfl

theorem c2_reset_behavior_witness :
    (init_formulas_db (StoreFile.val (Json.obj [("formulas", Json.str "not-a-map")])) =
       InitResult.ok [] (StoreFile.val defaultJson)) ∧
    (init_formulas_db (StoreFile.val (Json.obj [("pi", Json.str "3")])) =
       InitResult.ok [] (StoreFile.val (Json.obj [("pi", Json.str "3")]))) ∧
    (init_formulas_db (StoreFile.val (Json.arr [])) =
       InitResult.exc PyExc.attributeError) :=
  ⟨c2_reset_behavior.2.1 [("formulas", Json.str "not-a-map")] (Json.str "not-a-map") rfl rfl,
   c2_reset_behavior.2.2.1 [("pi", Json.str "3")] rfl,
   c2_reset_behavior.2.2.2 (Json.arr []) rfl⟩

/-- C3: resolving a previously unseen query stores the generated answer
under the lowercased key; afterwards any call whose query is equal to it
up to letter case, even after arbitrary intermediate formula calls,
returns the identical stored answer with the database tag, leaves the
state untouched and performs zero model-client calls. -/
theorem c3_cached_resolution (model : Model) (q q2 resp : String) (s : BotState)
    (qs : List String)
    (hmiss : alist_get (pyLower q) s.formulas_db = none)
    (hm : model (formulaPrompt q) = Except.ok resp)
    (hcase : pyLower q2 = pyLower q) :
    ∃ r1, get_formula model q s = Except.ok r1 ∧
      get_formula model q2 (runQueries model qs r1.state) =
        Except.ok ⟨"📘 From Database:\n" ++ resp, runQueries model qs r1.state, 0, 0⟩ := by
  refine ⟨⟨"🧠 New Formula:\n" ++ resp,
    ⟨insertKv (pyLower q) (Json.str resp) s.formulas_db,
     if s.diskWriteOk then
       StoreFile.val (Json.obj [("formulas",
         Json.obj (insertKv (pyLower q) (Json.str resp) s.formulas_db))])
     else s.disk,
     s.diskWriteOk⟩, 1, 1⟩, ?_, ?_⟩
  · simp [get_formula, hmiss, hm]
  · have hkey : alist_get (pyLower q)
        (insertKv (pyLower q) (Json.str resp) s.formulas_db) = some (Json.str resp) :=
      alist_get_insert_self _ _ _
    have hkey2 := runQueries_preserves model qs
      ⟨insertKv (pyLower q) (Json.str resp) s.formulas_db,
       if s.diskWriteOk then
         StoreFile.val (Json.obj [("formulas",
           Json.obj (insertKv (pyLower q) (Json.str resp) s.formulas_db))])
       else s.disk,
       s.diskWriteOk⟩ (pyLower q) (Json.str resp) hkey
    simp [get_formula, hcase, hkey2, pyStr]

theorem c3_cached_resolution_witness :
    ∃ r1, get_formula m0 "Ohm" s0 = Except.ok r1 ∧
      get_formula m0 "OHM" (runQueries m0 ["Newton"] r1.state) =
        Except.ok ⟨"📘 From Database:\n" ++ "R = V/I",
          runQueries m0 ["Newton"] r1.state, 0, 0⟩ :=
  c3_cached_resolution m0 "Ohm" "OHM" "R = V/I" s0 ["Newton"] (by rfl) (by rfl) (by rfl)

/-- C4: when the named file is missing under the documents directory, or
its first ten pages extract to whitespace only, query_pdf returns the
matching error result and performs zero model-client calls. -/
theorem c4_pdf_failure_no_model (model : Model) (fs : FileSystem) (filename question : String) :
    ((fs.documents = none ∨ ∃ es, fs.documents = some es ∧ alist_get filename es = none) →
      query_pdf model fs filename question =
        ⟨"❌ Error: File \x27" ++ filename ++ "\x27 not found.", 0⟩) ∧
    (∀ es pages, fs.documents = some es → alist_get filename es = some (PdfFile.pdf pages) →
      pyStrip (extract_text pages) = "" →
      query_pdf model fs filename question =
        ⟨"❌ Error: The document is empty or unreadable.", 0⟩) := by
  constructor
  · rintro (hd | ⟨es, hd, hf⟩)
    · simp [query_pdf, hd]
    · simp [query_pdf, hd, hf]
  · intro es pages hd hf hws
    simp [query_pdf, hd, hf, hws]

theorem c4_pdf_failure_no_model_witness :
    query_pdf m0 fs1 "missing.pdf" "q" =
      ⟨"❌ Error: File \x27missing.pdf\x27 not found.", 0⟩ ∧
    query_pdf m0 fs1 "blank.pdf" "q" =
      ⟨"❌ Error: The document is empty or unreadable.", 0⟩ :=
  ⟨(c4_pdf_failure_no_model m0 fs1 "missing.pdf" "q").1
      (Or.inr ⟨[("blank.pdf", .pdf ["  ", "\n"]), ("good.pdf", .pdf ["hello world"])],
        rfl, by rfl⟩),
   (c4_pdf_failure_no_model m0 fs1 "blank.pdf" "q").2
      [("blank.pdf", .pdf ["  ", "\n"]), ("good.pdf", .pdf ["hello world"])]
      ["  ", "\n"] rfl (by rfl) (by rfl)⟩

/-- C5: on an existing PDF whose extracted text is not all whitespace,
query_pdf calls the model client exactly once, on the prompt made of the
first 10000 characters of the extracted text, which is the concatenation
of the first min(pageCount, 10) pages in page order, plus the literal
question, and returns the model output with the PDF-answer tag. -/
theorem c5_pdf_success (model : Model) (fs : FileSystem) (filename question : String)
    (es : List (String × PdfFile)) (pages : List String) (resp : String)
    (hd : fs.documents = some es)
    (hf : alist_get filename es = some (PdfFile.pdf pages))
    (hne : pyStrip (extract_text pages) ≠ "")
    (hm : model (pdfPrompt (extract_text pages) question) = Except.ok resp) :
    query_pdf model fs filename question = ⟨"📄 PDF Answer:\n" ++ resp, 1⟩ ∧
    pdfPrompt (extract_text pages) question =
      "Answer based on this document:\n" ++ pyTake (extract_text pages) 10000 ++
        "\n\nQuestion: " ++ question ++ "\nAnswer:" ∧
    extract_text pages = String.join (pages.take 10) ∧
    (pyTake (extract_text pages) 10000).length ≤ 10000 := by
  refine ⟨?_, rfl, rfl, ?_⟩
  · simp only [query_pdf, hd, hf]
    rw [if_neg hne, hm]
  · exact List.length_take_le 10000 (extract_text pages).data

theorem c5_pdf_success_witness :
    query_pdf m0 fs1 "good.pdf" "what" = ⟨"📄 PDF Answer:\n" ++ "R = V/I", 1⟩ ∧
    pdfPrompt (extract_text ["hello world"]) "what" =
      "Answer based on this document:\n" ++ pyTake (extract_text ["hello world"]) 10000 ++
        "\n\nQuestion: " ++ "what" ++ "\nAnswer:" ∧
    extract_text ["hello world"] = String.join (["hello world"].take 10) ∧
    (pyTake (extract_text ["hello world"]) 10000).length ≤ 10000 :=
  c5_pdf_success m0 fs1 "good.pdf" "what"
    [("blank.pdf", .pdf ["  ", "\n"]), ("good.pdf", .pdf ["hello world"])]
    ["hello world"] "R = V/I" rfl (by rfl) (by decide) rfl

/-- C6: on a cache miss whose store-file write fails, get_formula still
returns normally, so the failure is caught rather than crashing, with the
tagged newly generated answer; the new entry is present in the in-memory
map under the lowercased key and the on-disk document is left as it was. -/
theorem c6_write_failure_kept (model : Model) (q resp : String) (s : BotState)
    (hmiss : alist_get (pyLower q) s.formulas_db = none)
    (hw : s.diskWriteOk = false)
    (hm : model (formulaPrompt q) = Except.ok resp) :
    get_formula model q s =
      Except.ok ⟨"🧠 New Formula:\n" ++ resp,
        ⟨insertKv (pyLower q) (Json.str resp) s.formulas_db, s.disk, false⟩, 1, 1⟩ ∧
    alist_get (pyLower q) (insertKv (pyLower q) (Json.str resp) s.formulas_db) =
      some (Json.str resp) := by
  refine ⟨?_, alist_get_insert_self _ _ _⟩
  simp [get_formula, hmiss, hm, hw]

theorem c6_write_failure_kept_witness :
    get_formula m0 "Ohm" s0nw =
      Except.ok ⟨"🧠 New Formula:\n" ++ "R = V/I",
        ⟨[("ohm", Json.str "R = V/I")], StoreFile.val defaultJson, false⟩, 1, 1⟩ ∧
    alist_get "ohm" [("ohm", Json.str "R = V/I")] = some (Json.str "R = V/I") :=
  c6_write_failure_kept m0 "Ohm" "R = V/I" s0nw (by rfl) rfl rfl

/-- C7 counterexample: an ask command whose model-client call raises makes
the loop iteration end in an uncaught exception, terminating the process,
instead of continuing to the next iteration. -/
theorem c7_crash_counterexample :
    step mBoom fs0 s0 "ask q" = LoopOutcome.crash "boom" s0 := by rfl

/-- C7 amended: the only way a loop iteration terminates the process is a
formula query, an input whose stripped lowercased form begins with a-s-k
and a space, whose get_formula call raises because the model client
raised; every other input line continues the loop or, for exit and quit,
ends it normally. -/
theorem c7_crash_characterization (model : Model) (fs : FileSystem) (s s2 : BotState)
    (line e : String)
    (h : step model fs s line = LoopOutcome.crash e s2) :
    pyStartsWith (pyLower (pyStrip line)) "ask " = true ∧
    get_formula model (pyDrop (pyStrip line) 4) s = Except.error e ∧
    s2 = s := by
  simp only [step] at h
  split at h
  · exact LoopOutcome.noConfusion h
  · split at h
    · exact LoopOutcome.noConfusion h
    · split at h
      · exact LoopOutcome.noConfusion h
      · split at h
        · exact LoopOutcome.noConfusion h
        · split at h
          · split at h
            · exact LoopOutcome.noConfusion h
            · exact LoopOutcome.noConfusion h
          · split at h
            · rename_i hask heq
              split at h
              · exact LoopOutcome.noConfusion h
              · rename_i e0 herr
                injection h with h1 h2
                subst h1
                subst h2
                exact ⟨heq, herr, rfl⟩
            · exact LoopOutcome.noConfusion h

theorem c7_crash_characterization_witness :
    pyStartsWith (pyLower (pyStrip "ask w")) "ask " = true ∧
    get_formula mBoom (pyDrop (pyStrip "ask w") 4) s0 = Except.error "boom" ∧
    s0 = s0 :=
  c7_crash_characterization mBoom fs0 s0 s0 "ask w" "boom" (by rfl)

/-- C8 counterexample: the bare input line pdf has pdf as its command word
and supplies neither filename nor question, but the loop prints the
generic invalid-command hint, not the pdf usage message; no orchestrator
call happens. -/
theorem c8_bare_pdf_counterexample :
    step m0 fs0 s0 "pdf" = LoopOutcome.cont invalidMsg s0 0 ∧
    invalidMsg ≠ usageMsg ∧
    pySplit 2 "pdf" = ["pdf"] :=
  ⟨by rfl, by decide, by rfl⟩

/-- C8 amended: an input line whose stripped lowercased form begins with
the four characters p-d-f space but splits into fewer than three parts
prints the pdf usage message, changes no state and performs no
orchestrator call; the bare line pdf instead falls through to the
invalid-command hint, likewise without any orchestrator call. -/
theorem c8_usage_no_call (model : Model) (fs : FileSystem) (s : BotState) (line : String)
    (h1 : pyStartsWith (pyLower (pyStrip line)) "pdf " = true)
    (h2 : (pySplit 2 (pyStrip line)).length < 3) :
    step model fs s line = LoopOutcome.cont usageMsg s 0 := by
  have hne : pyStrip line ≠ "" := by
    intro h0
    rw [h0] at h1
    exact absurd h1 (by decide)
  have hexit : pyLower (pyStrip line) ≠ "exit" := by
    intro h0
    rw [h0] at h1
    exact absurd h1 (by decide)
  have hquit : pyLower (pyStrip line) ≠ "quit" := by
    intro h0
    rw [h0] at h1
    exact absurd h1 (by decide)
  have hhelp : pyLower (pyStrip line) ≠ "help" := by
    intro h0
    rw [h0] at h1
    exact absurd h1 (by decide)
  have hlist : pyLower (pyStrip line) ≠ "list" := by
    intro h0
    rw [h0] at h1
    exact absurd h1 (by decide)
  rcases hsp : pySplit 2 (pyStrip line) with _ | ⟨a, _ | ⟨b, _ | ⟨c, t⟩⟩⟩
  · simp only [step]
    rw [if_neg hne, if_neg (not_or.mpr ⟨hexit, hquit⟩), if_neg hhelp, if_neg hlist,
      if_pos h1, hsp]
  · simp only [step]
    rw [if_neg hne, if_neg (not_or.mpr ⟨hexit, hquit⟩), if_neg hhelp, if_neg hlist,
      if_pos h1, hsp]
  · simp only [step]
    rw [if_neg hne, if_neg (not_or.mpr ⟨hexit, hquit⟩), if_neg hhelp, if_neg hlist,
      if_pos h1, hsp]
  · rw [hsp] at h2
    simp only [List.length_cons] at h2
    omega

theorem c8_usage_no_call_witness :
    step m0 fs0 s0 "pdf x" = LoopOutcome.cont usageMsg s0 0 :=
  c8_usage_no_call m0 fs0 s0 "pdf x" (by rfl) (by decide)

/-- C9: a get_formula call that hits the cache makes no model call,
attempts no disk write, and leaves the entire state, the in-memory map
and the on-disk document alike, unchanged. -/
theorem c9_cache_hit_frame (model : Model) (q : String) (s : BotState) (v : Json)
    (h : alist_get (pyLower q) s.formulas_db = some v) :
    get_formula model q s = Except.ok ⟨"📘 From Database:\n" ++ pyStr v, s, 0, 0⟩ := by
  simp [get_formula, h]

theorem c9_cache_hit_frame_witness :
    get_formula m0 "Ohm" ⟨[("ohm", Json.str "V=IR")], StoreFile.val defaultJson, true⟩ =
      Except.ok ⟨"📘 From Database:\nV=IR",
        ⟨[("ohm", Json.str "V=IR")], StoreFile.val defaultJson, true⟩, 0, 0⟩ :=
  c9_cache_hit_frame m0 "Ohm" ⟨[("ohm", Json.str "V=IR")], StoreFile.val defaultJson, true⟩
    (Json.str "V=IR") (by rfl)

/-- C10: a filename is listed exactly when it sits in the documents
directory and ends with the exact lowercase string dot-pdf; in particular
the uppercase name NOTES.PDF is never listed. -/
theorem c10_list_case_sensitive :
    ∀ (fs : FileSystem) (f : String),
      (f ∈ list_files fs ↔
        ∃ es, fs.documents = some es ∧ f ∈ es.map Prod.fst ∧ pyEndsWith f ".pdf" = true) ∧
      "NOTES.PDF" ∉ list_files fs := by
  intro fs f
  have hnotes : pyEndsWith "NOTES.PDF" ".pdf" = false := by decide
  constructor
  · cases hd : fs.documents with
    | none => simp [list_files, hd]
    | some es => simp [list_files, hd, List.mem_filter]
  · cases hd : fs.documents with
    | none => simp [list_files, hd]
    | some es => simp [list_files, hd, List.mem_filter, hnotes]

end StudyBot
